import Mathlib

/-!
Verification of `src/samples/entry_point.c`: a program that embeds a
10-byte machine-instruction buffer in read-only data, masks the buffer
address down to its 4096-byte page boundary, calls `mprotect` to make
that page readable and executable, and jumps to the buffer.

The program is straight-line C; we embed it as a pure function `run`
over an environment that supplies the addresses chosen by the loader,
the result of the `mprotect` system call, and the observable behavior
of the invoked instruction bytes.
-/

namespace ParseElf

/-- Page size assumed by the program: the `0x1000` length passed to `mprotect`. -/
def PAGE_LEN : Nat := 0x1000

/-- `PROT_READ` on Linux. -/
def PROT_READ : Nat := 1

/-- `PROT_EXEC` on Linux. -/
def PROT_EXEC : Nat := 4

/-- The mask `~0xFFF` of line 18, as the 64-bit `size_t` it is converted to:
`~0xFFF` is the `int` value `-0x1000`, which converts to `2 ^ 64 - 0x1000`. -/
def MASK64 : Nat := 2 ^ 64 - 0x1000

/-- Line 18 of entry_point.c: `region = region & (~0xFFF);` applied to the
buffer address held in the `size_t` variable `region`. -/
def pageBase (a : Nat) : Nat := a &&& MASK64

/-- The bytes of the string literal on line 9 of entry_point.c:
`"\x48\x31\xff\xB8\x3C\x00\x00\x00\x0F\x05"`. -/
def instructions : List Nat :=
  [0x48, 0x31, 0xff, 0xB8, 0x3C, 0x00, 0x00, 0x00, 0x0F, 0x05]

/-- The 10-byte payload as documented in the spec, by its decimal-equivalent
hex values 0x48, 0x31, 0xFF, 0xB8, 0x3C, 0x00, 0x00, 0x00, 0x0F, 0x05. -/
def documentedPayload : List Nat :=
  [0x48, 0x31, 0xFF, 0xB8, 0x3C, 0x00, 0x00, 0x00, 0x0F, 0x05]

/-- One line of standard output produced by the program. -/
inductive Line where
  /-- `main @ %p` (line 12). -/
  | mainAt (addr : Nat)
  /-- `instructions @ %p` (line 13). -/
  | instructionsAt (addr : Nat)
  /-- `Page start: %p` (line 20). -/
  | pageStart (addr : Nat)
  /-- `making instructions executable...` (line 22). -/
  | makingExecutable
  /-- `mprotect failed: error %s` (line 30). -/
  | mprotectFailed (err : String)
  /-- `jumping...` (line 35). -/
  | jumping
  /-- `after jump` (line 37). -/
  | afterJump
deriving DecidableEq, Repr

/-- Observable behavior of the invoked instruction bytes: either they issue a
process-terminating system call with some status, or they return control. -/
inductive PayloadBehavior where
  /-- The buffer terminates the process with the given status. -/
  | terminates (status : Nat)
  /-- The buffer returns control to the caller. -/
  | returnsControl
deriving DecidableEq, Repr

/-- The memory holding the instruction buffer: its bytes and the protection
flags of its page. -/
structure MemState where
  buf : List Nat
  prot : Nat
deriving DecidableEq, Repr

/-- Inputs the program does not control: the addresses chosen by the loader,
the `mprotect` return value and the corresponding `strerror(errno)` text,
and what the payload does when invoked. -/
structure Env where
  mainAddr : Nat
  instrAddr : Nat
  mprotectRet : Int
  errnoDesc : String
  payload : PayloadBehavior

/-- Everything observable about one run of the program. -/
structure RunResult where
  trace : List Line
  exitCode : Nat
  invoked : Nat
  mprotectCalls : List (Nat × Nat × Nat)
  mem : MemState
deriving DecidableEq, Repr

/-- The body of `main` (lines 12-38 of entry_point.c), as a function of the
environment and the initial memory state. The four leading prints happen
before the `mprotect` call; on nonzero return main prints the error line and
returns 1; on zero return it prints `jumping...`, calls the buffer once, and
either the payload terminates the process with its own status or control
returns, `after jump` is printed and main falls off the end (status 0). -/
def run (env : Env) (init : MemState) : RunResult :=
  if env.mprotectRet ≠ 0 then
    { trace := [Line.mainAt env.mainAddr, Line.instructionsAt env.instrAddr,
                Line.pageStart (pageBase env.instrAddr), Line.makingExecutable,
                Line.mprotectFailed env.errnoDesc]
      exitCode := 1
      invoked := 0
      mprotectCalls := [(pageBase env.instrAddr, PAGE_LEN, PROT_READ ||| PROT_EXEC)]
      mem := init }
  else
    match env.payload with
    | PayloadBehavior.terminates s =>
      { trace := [Line.mainAt env.mainAddr, Line.instructionsAt env.instrAddr,
                  Line.pageStart (pageBase env.instrAddr), Line.makingExecutable,
                  Line.jumping]
        exitCode := s
        invoked := 1
        mprotectCalls := [(pageBase env.instrAddr, PAGE_LEN, PROT_READ ||| PROT_EXEC)]
        mem := { buf := init.buf, prot := PROT_READ ||| PROT_EXEC } }
    | PayloadBehavior.returnsControl =>
      { trace := [Line.mainAt env.mainAddr, Line.instructionsAt env.instrAddr,
                  Line.pageStart (pageBase env.instrAddr), Line.makingExecutable,
                  Line.jumping, Line.afterJump]
        exitCode := 0
        invoked := 1
        mprotectCalls := [(pageBase env.instrAddr, PAGE_LEN, PROT_READ ||| PROT_EXEC)]
        mem := { buf := init.buf, prot := PROT_READ ||| PROT_EXEC } }

/-- The bit `i` of the 64-bit mask `~0xFFF` is set exactly for `12 ≤ i < 64`. -/
theorem testBit_MASK64 (i : Nat) :
    Nat.testBit MASK64 i = (decide (12 ≤ i) && decide (i < 64)) := by
  have hm : MASK64 = (2 ^ 52 - 1) <<< 12 := by decide
  rw [hm, Nat.testBit_shiftLeft, Nat.testBit_two_pow_sub_one]
  by_cases h12 : 12 ≤ i
  · have hiff : (i - 12 < 52) ↔ (i < 64) := by omega
    simp [h12, hiff, ge_iff_le]
  · simp [h12, ge_iff_le]

/-- For 64-bit addresses, masking with `~0xFFF` is rounding down to a
multiple of 4096. -/
theorem pageBase_eq {a : Nat} (h : a < 2 ^ 64) : pageBase a = a / 4096 * 4096 := by
  have hrw : a / 4096 * 4096 = (a >>> 12) <<< 12 := by
    rw [Nat.shiftRight_eq_div_pow, Nat.shiftLeft_eq]
  rw [hrw]
  apply Nat.eq_of_testBit_eq
  intro i
  rw [pageBase, Nat.testBit_and, testBit_MASK64, Nat.testBit_shiftLeft]
  by_cases h12 : 12 ≤ i
  · have hc : 12 + (i - 12) = i := by omega
    by_cases h64 : i < 64
    · simp [h12, h64, hc, ge_iff_le]
    · have hbit : Nat.testBit a i = false :=
        Nat.testBit_lt_two_pow
          (Nat.lt_of_lt_of_le h (Nat.pow_le_pow_right (by norm_num) (by omega)))
      simp [h12, hc, hbit, ge_iff_le]
  · simp [h12, ge_iff_le]

/-- The masked address is always a multiple of the page size. -/
theorem pageBase_mod (a : Nat) : pageBase a % 4096 = 0 := by
  have h1 : pageBase a % 2 ^ 12 = pageBase a &&& (2 ^ 12 - 1) :=
    (Nat.and_pow_two_sub_one_eq_mod (pageBase a) 12).symm
  have h2 : (4096 : Nat) = 2 ^ 12 := by norm_num
  rw [h2, h1, pageBase, Nat.and_assoc]
  have h3 : MASK64 &&& (2 ^ 12 - 1) = 0 := by decide
  rw [h3, Nat.and_zero]

/-- Masking clears each of the low 12 bits. -/
theorem pageBase_testBit_low (a : Nat) {i : Nat} (hi : i < 12) :
    Nat.testBit (pageBase a) i = false := by
  rw [pageBase, Nat.testBit_and, testBit_MASK64]
  have h12 : ¬ (12 ≤ i) := by omega
  simp [h12]

/-- Masking a 64-bit address preserves every bit from position 12 up. -/
theorem pageBase_testBit_high {a : Nat} (h : a < 2 ^ 64) {i : Nat} (hi : 12 ≤ i) :
    Nat.testBit (pageBase a) i = Nat.testBit a i := by
  rw [pageBase, Nat.testBit_and, testBit_MASK64]
  by_cases h64 : i < 64
  · simp [hi, h64]
  · have hbit : Nat.testBit a i = false :=
      Nat.testBit_lt_two_pow
        (Nat.lt_of_lt_of_le h (Nat.pow_le_pow_right (by norm_num) (by omega)))
    simp [hbit]

/-- Claim C1: for every 64-bit address `A`, the page base `P = A & ~0xFFF`
satisfies `P ≤ A < P + 4096` and `P mod 4096 = 0`, and the masking clears
exactly the low 12 bits: bit `i` of `P` is clear for `i < 12` and equals
bit `i` of `A` for `12 ≤ i`. -/
theorem pageBase_correct (a i : Nat) (h : a < 2 ^ 64) :
    pageBase a ≤ a ∧ a < pageBase a + 4096 ∧ pageBase a % 4096 = 0 ∧
    (i < 12 → Nat.testBit (pageBase a) i = false) ∧
    (12 ≤ i → Nat.testBit (pageBase a) i = Nat.testBit a i) := by
  refine ⟨Nat.and_le_left, ?_, pageBase_mod a,
    fun hi => pageBase_testBit_low a hi, fun hi => pageBase_testBit_high h hi⟩
  have he := pageBase_eq h
  omega

/-- Witness for C1 at the concrete address 5000 and bit 12. -/
theorem pageBase_correct_witness :
    (5000 < 2 ^ 64) ∧
    (pageBase 5000 ≤ 5000 ∧ 5000 < pageBase 5000 + 4096 ∧
     pageBase 5000 % 4096 = 0 ∧
     (12 < 12 → Nat.testBit (pageBase 5000) 12 = false) ∧
     (12 ≤ 12 → Nat.testBit (pageBase 5000) 12 = Nat.testBit 5000 12)) :=
  ⟨by norm_num, pageBase_correct 5000 12 (by norm_num)⟩

/-- Claim C2: whenever `mprotect` returns a nonzero result the program prints
the four leading lines followed by the error line carrying the platform error
description, exits with status 1, and never invokes the buffer. -/
theorem mprotect_failure_exits (env : Env) (init : MemState)
    (h : env.mprotectRet ≠ 0) :
    (run env init).trace =
      [Line.mainAt env.mainAddr, Line.instructionsAt env.instrAddr,
       Line.pageStart (pageBase env.instrAddr), Line.makingExecutable,
       Line.mprotectFailed env.errnoDesc] ∧
    (run env init).exitCode = 1 ∧
    (run env init).invoked = 0 := by
  simp [run, h]

/-- Witness for C2 with `mprotect` returning -1. -/
theorem mprotect_failure_exits_witness :
    ((-1 : Int) ≠ 0) ∧
    ((run (Env.mk 0 0 (-1) "Permission denied" (PayloadBehavior.terminates 0))
        (MemState.mk instructions PROT_READ)).trace =
      [Line.mainAt 0, Line.instructionsAt 0, Line.pageStart (pageBase 0),
       Line.makingExecutable, Line.mprotectFailed "Permission denied"] ∧
     (run (Env.mk 0 0 (-1) "Permission denied" (PayloadBehavior.terminates 0))
        (MemState.mk instructions PROT_READ)).exitCode = 1 ∧
     (run (Env.mk 0 0 (-1) "Permission denied" (PayloadBehavior.terminates 0))
        (MemState.mk instructions PROT_READ)).invoked = 0) :=
  ⟨by decide,
   mprotect_failure_exits
     (Env.mk 0 0 (-1) "Permission denied" (PayloadBehavior.terminates 0))
     (MemState.mk instructions PROT_READ) (by decide)⟩

/-- Claim C3: on every run where `mprotect` fails, the trace never contains
the `jumping...` line. -/
theorem no_jump_on_failure (env : Env) (init : MemState)
    (h : env.mprotectRet ≠ 0) :
    Line.jumping ∉ (run env init).trace := by
  simp [run, h]

/-- Witness for C3 with `mprotect` returning -1. -/
theorem no_jump_on_failure_witness :
    ((-1 : Int) ≠ 0) ∧
    Line.jumping ∉
      (run (Env.mk 0 0 (-1) "Permission denied" (PayloadBehavior.terminates 0))
        (MemState.mk instructions PROT_READ)).trace :=
  ⟨by decide,
   no_jump_on_failure
     (Env.mk 0 0 (-1) "Permission denied" (PayloadBehavior.terminates 0))
     (MemState.mk instructions PROT_READ) (by decide)⟩

/-- Claim C4: whenever `mprotect` returns zero the buffer is invoked exactly
once, whatever the payload then does. -/
theorem invoked_once_on_success (env : Env) (init : MemState)
    (h : env.mprotectRet = 0) :
    (run env init).invoked = 1 := by
  cases hp : env.payload <;> simp [run, h, hp]

/-- Witness for C4 with `mprotect` returning 0. -/
theorem invoked_once_on_success_witness :
    ((0 : Int) = 0) ∧
    (run (Env.mk 0 0 0 "" (PayloadBehavior.terminates 0))
      (MemState.mk instructions PROT_READ)).invoked = 1 :=
  ⟨by decide,
   invoked_once_on_success (Env.mk 0 0 0 "" (PayloadBehavior.terminates 0))
     (MemState.mk instructions PROT_READ) (by decide)⟩

/-- Claim C5: in a successful run with the documented payload, which
terminates the process with status 0 when invoked, the trace is exactly the
five lines, in order: entry-routine address, buffer address, page base,
`making instructions executable...`, `jumping...`; and the exit status is 0. -/
theorem success_trace_and_exit (env : Env) (init : MemState)
    (h : env.mprotectRet = 0)
    (hp : env.payload = PayloadBehavior.terminates 0) :
    (run env init).trace =
      [Line.mainAt env.mainAddr, Line.instructionsAt env.instrAddr,
       Line.pageStart (pageBase env.instrAddr), Line.makingExecutable,
       Line.jumping] ∧
    (run env init).trace.length = 5 ∧
    (run env init).exitCode = 0 := by
  simp [run, h, hp]

/-- Witness for C5 with `mprotect` returning 0 and the terminating payload. -/
theorem success_trace_and_exit_witness :
    ((0 : Int) = 0) ∧
    ((PayloadBehavior.terminates 0 : PayloadBehavior) =
      PayloadBehavior.terminates 0) ∧
    ((run (Env.mk 0 0 0 "" (PayloadBehavior.terminates 0))
        (MemState.mk instructions PROT_READ)).trace =
      [Line.mainAt 0, Line.instructionsAt 0, Line.pageStart (pageBase 0),
       Line.makingExecutable, Line.jumping] ∧
     (run (Env.mk 0 0 0 "" (PayloadBehavior.terminates 0))
        (MemState.mk instructions PROT_READ)).trace.length = 5 ∧
     (run (Env.mk 0 0 0 "" (PayloadBehavior.terminates 0))
        (MemState.mk instructions PROT_READ)).exitCode = 0) :=
  ⟨by decide, by decide,
   success_trace_and_exit (Env.mk 0 0 0 "" (PayloadBehavior.terminates 0))
     (MemState.mk instructions PROT_READ) (by decide) (by decide)⟩

/-- Claim C6: the embedded instruction buffer is exactly the documented 10
bytes 0x48, 0x31, 0xFF, 0xB8, 0x3C, 0x00, 0x00, 0x00, 0x0F, 0x05. -/
theorem instructions_documented :
    instructions = documentedPayload ∧ instructions.length = 10 := by decide

/-- Claim C7 fails as stated: at the starting address 4090 the page base is 0,
and the 10-byte buffer ends at 4100, past the end of the single protected
page at 0 + 4096. The buffer straddles the page boundary. -/
theorem page_containment_cex :
    pageBase 4090 ≤ 4090 ∧ ¬ (4090 + 10 ≤ pageBase 4090 + 4096) := by decide

/-- Claim C7 (amended): for every 64-bit starting address whose page offset
leaves room for the 10 bytes (offset at most 4096 - 10), the single protected
page contains the whole buffer. -/
theorem page_containment (a : Nat) (h : a < 2 ^ 64)
    (hoff : a % 4096 + 10 ≤ 4096) :
    pageBase a ≤ a ∧ a + 10 ≤ pageBase a + 4096 := by
  have he := pageBase_eq h
  exact ⟨Nat.and_le_left, by omega⟩

/-- Witness for the amended C7 at the concrete address 4096. -/
theorem page_containment_witness :
    (4096 < 2 ^ 64) ∧ (4096 % 4096 + 10 ≤ 4096) ∧
    (pageBase 4096 ≤ 4096 ∧ 4096 + 10 ≤ pageBase 4096 + 4096) :=
  ⟨by norm_num, by norm_num, page_containment 4096 (by norm_num) (by norm_num)⟩

/-- Claim C8: if the invoked buffer returns control, the run continues as
from a normal function return: `after jump` is printed after `jumping...`
and the process exits with status 0. -/
theorem return_not_distinguished (env : Env) (init : MemState)
    (h : env.mprotectRet = 0)
    (hp : env.payload = PayloadBehavior.returnsControl) :
    (run env init).trace =
      [Line.mainAt env.mainAddr, Line.instructionsAt env.instrAddr,
       Line.pageStart (pageBase env.instrAddr), Line.makingExecutable,
       Line.jumping, Line.afterJump] ∧
    (run env init).exitCode = 0 := by
  simp [run, h, hp]

/-- Witness for C8 with `mprotect` returning 0 and a returning payload. -/
theorem return_not_distinguished_witness :
    ((0 : Int) = 0) ∧
    ((PayloadBehavior.returnsControl : PayloadBehavior) =
      PayloadBehavior.returnsControl) ∧
    ((run (Env.mk 0 0 0 "" PayloadBehavior.returnsControl)
        (MemState.mk instructions PROT_READ)).trace =
      [Line.mainAt 0, Line.instructionsAt 0, Line.pageStart (pageBase 0),
       Line.makingExecutable, Line.jumping, Line.afterJump] ∧
     (run (Env.mk 0 0 0 "" PayloadBehavior.returnsControl)
        (MemState.mk instructions PROT_READ)).exitCode = 0) :=
  ⟨by decide, by decide,
   return_not_distinguished (Env.mk 0 0 0 "" PayloadBehavior.returnsControl)
     (MemState.mk instructions PROT_READ) (by decide) (by decide)⟩

/-- Claim C9: starting from a page that is not executable, the run never
mutates the buffer bytes, issues exactly one protection-change request, and
the protection moves to read+execute exactly when `mprotect` succeeds,
staying unchanged (still non-executable) when it fails. -/
theorem buffer_frame (env : Env) (init : MemState)
    (hprot : init.prot &&& PROT_EXEC = 0) :
    (run env init).mem.buf = init.buf ∧
    (run env init).mprotectCalls.length = 1 ∧
    (env.mprotectRet = 0 →
      (run env init).mem.prot = (PROT_READ ||| PROT_EXEC) ∧
      (run env init).mem.prot &&& PROT_EXEC ≠ 0) ∧
    (env.mprotectRet ≠ 0 →
      (run env init).mem.prot = init.prot ∧
      (run env init).mem.prot &&& PROT_EXEC = 0) := by
  by_cases h : env.mprotectRet = 0
  · cases hp : env.payload <;> simp [run, h, hp, hprot] <;> decide
  · simp [run, h, hprot]

/-- Witness for C9 starting from a read-only page. -/
theorem buffer_frame_witness :
    (PROT_READ &&& PROT_EXEC = 0) ∧
    ((run (Env.mk 0 0 0 "" (PayloadBehavior.terminates 0))
        (MemState.mk instructions PROT_READ)).mem.buf = instructions ∧
     (run (Env.mk 0 0 0 "" (PayloadBehavior.terminates 0))
        (MemState.mk instructions PROT_READ)).mprotectCalls.length = 1 ∧
     ((0 : Int) = 0 →
       (run (Env.mk 0 0 0 "" (PayloadBehavior.terminates 0))
          (MemState.mk instructions PROT_READ)).mem.prot =
         (PROT_READ ||| PROT_EXEC) ∧
       (run (Env.mk 0 0 0 "" (PayloadBehavior.terminates 0))
          (MemState.mk instructions PROT_READ)).mem.prot &&& PROT_EXEC ≠ 0) ∧
     ((0 : Int) ≠ 0 →
       (run (Env.mk 0 0 0 "" (PayloadBehavior.terminates 0))
          (MemState.mk instructions PROT_READ)).mem.prot = PROT_READ ∧
       (run (Env.mk 0 0 0 "" (PayloadBehavior.terminates 0))
          (MemState.mk instructions PROT_READ)).mem.prot &&& PROT_EXEC = 0)) :=
  ⟨by decide,
   buffer_frame (Env.mk 0 0 0 "" (PayloadBehavior.terminates 0))
     (MemState.mk instructions PROT_READ) (by decide)⟩

/-- Claim C10: in every run the single `mprotect` call receives the masked
page base, which is a multiple of 4096, and the length 0x1000, so the
address-not-page-aligned failure cause is unreachable. -/
theorem mprotect_args_aligned (env : Env) (init : MemState) :
    (run env init).mprotectCalls =
      [(pageBase env.instrAddr, PAGE_LEN, PROT_READ ||| PROT_EXEC)] ∧
    pageBase env.instrAddr % 4096 = 0 ∧
    PAGE_LEN = 0x1000 := by
  refine ⟨?_, pageBase_mod env.instrAddr, rfl⟩
  by_cases h : env.mprotectRet = 0
  · cases hp : env.payload <;> simp [run, h, hp]
  · simp [run, h]

end ParseElf
